import Mathlib

/-!
Shallow embedding of the full-node core of the chia-blockchain repository
(src/full_node/full_node.py, src/consensus/mempool_check_conditions.py,
src/types/program.py), together with proofs about the handlers' control
flow.  Collaborator objects that live outside the embedded files
(Blockchain, FullNodeStore, SyncStore, the consensus helper functions and
the cryptographic routines) are represented as oracle fields of explicit
environment records: each handler is a pure function of its environment,
its mutable state and its message, returning a result record that lists
the side effects the Python code would perform.
-/

/-- Byte strings are modelled as lists of naturals. -/
abbrev Bytes := List Nat

namespace Chia.Mempool

/-- Error codes from src/util/errors.py that the mempool condition checks
produce. -/
inductive Err where
  | ASSERT_COIN_CONSUMED_FAILED
  | ASSERT_MY_COIN_ID_FAILED
  | ASSERT_BLOCK_INDEX_EXCEEDS_FAILED
  | ASSERT_BLOCK_AGE_EXCEEDS_FAILED
  | ASSERT_TIME_EXCEEDS_FAILED
  | INVALID_CONDITION
deriving DecidableEq, Repr

/-- Condition opcodes.  The dispatcher in mempool_check_conditions_dict
tests identity against exactly five opcodes; every other opcode value is
represented by the `other` constructor. -/
inductive ConditionOpcode where
  | ASSERT_COIN_CONSUMED
  | ASSERT_MY_COIN_ID
  | ASSERT_BLOCK_INDEX_EXCEEDS
  | ASSERT_BLOCK_AGE_EXCEEDS
  | ASSERT_TIME_EXCEEDS
  | other (code : Nat)
deriving DecidableEq, Repr

/-- A condition with its opcode and its variable list, as in
src/types/condition_var_pair.py. -/
structure ConditionVarPair where
  opcode : ConditionOpcode
  vars : List Bytes
deriving DecidableEq, Repr

/-- The part of a CoinRecord that the mempool checks read. -/
structure CoinRecord where
  coinName : Bytes
  confirmedBlockIndex : Nat
deriving DecidableEq, Repr

/-- Environment of the mempool checks: the spend bundle's removal names,
the unspent coin record, the peak height, the current time in
milliseconds, and the clvm integer decoder (`none` models a ValueError
raised by int_from_bytes, which the source catches). -/
structure MempoolEnv where
  intFromBytes : Bytes → Option Int
  bundleRemovals : List Bytes
  unspent : CoinRecord
  peakHeight : Nat
  currentTime : Nat

/-- Embeds mempool_assert_coin_consumed from
src/consensus/mempool_check_conditions.py lines 16-27. -/
def mempool_assert_coin_consumed (env : MempoolEnv) (condition : ConditionVarPair) :
    Option Err :=
  let coin_name := condition.vars.headD []
  if coin_name ∉ env.bundleRemovals then some .ASSERT_COIN_CONSUMED_FAILED
  else none

/-- Embeds mempool_assert_my_coin_id, lines 30-38. -/
def mempool_assert_my_coin_id (env : MempoolEnv) (condition : ConditionVarPair) :
    Option Err :=
  if env.unspent.coinName ≠ condition.vars.headD [] then some .ASSERT_MY_COIN_ID_FAILED
  else none

/-- Embeds mempool_assert_block_index_exceeds, lines 41-54. -/
def mempool_assert_block_index_exceeds (env : MempoolEnv) (condition : ConditionVarPair) :
    Option Err :=
  match env.intFromBytes (condition.vars.headD []) with
  | none => some .INVALID_CONDITION
  | some expected_block_index =>
    if (env.peakHeight : Int) + 1 ≤ expected_block_index then
      some .ASSERT_BLOCK_INDEX_EXCEEDS_FAILED
    else none

/-- Embeds mempool_assert_block_age_exceeds, lines 57-70. -/
def mempool_assert_block_age_exceeds (env : MempoolEnv) (condition : ConditionVarPair) :
    Option Err :=
  match env.intFromBytes (condition.vars.headD []) with
  | none => some .INVALID_CONDITION
  | some expected_block_age =>
    let expected_block_index := expected_block_age + env.unspent.confirmedBlockIndex
    if (env.peakHeight : Int) + 1 ≤ expected_block_index then
      some .ASSERT_BLOCK_AGE_EXCEEDS_FAILED
    else none

/-- Embeds mempool_assert_time_exceeds, lines 73-85. -/
def mempool_assert_time_exceeds (env : MempoolEnv) (condition : ConditionVarPair) :
    Option Err :=
  match env.intFromBytes (condition.vars.headD []) with
  | none => some .INVALID_CONDITION
  | some expected_mili_time =>
    if (env.currentTime : Int) ≤ expected_mili_time then some .ASSERT_TIME_EXCEEDS_FAILED
    else none

/-- The if/elif dispatch on one condition, lines 131-140.  When the opcode
is none of the five tested opcodes the chain falls through and `error`
keeps its initial value None. -/
def checkCvp (env : MempoolEnv) (cvp : ConditionVarPair) : Option Err :=
  match cvp.opcode with
  | .ASSERT_COIN_CONSUMED => mempool_assert_coin_consumed env cvp
  | .ASSERT_MY_COIN_ID => mempool_assert_my_coin_id env cvp
  | .ASSERT_BLOCK_INDEX_EXCEEDS => mempool_assert_block_index_exceeds env cvp
  | .ASSERT_BLOCK_AGE_EXCEEDS => mempool_assert_block_age_exceeds env cvp
  | .ASSERT_TIME_EXCEEDS => mempool_assert_time_exceeds env cvp
  | .other _ => none

/-- Inner loop over one value list of the conditions dictionary. -/
def checkList (env : MempoolEnv) : List ConditionVarPair → Option Err
  | [] => none
  | cvp :: rest =>
    match checkCvp env cvp with
    | some e => some e
    | none => checkList env rest

/-- Embeds mempool_check_conditions_dict, lines 118-145.  The conditions
dictionary is represented by its list of value lists, traversed in order;
the first check that returns an error is the function's result. -/
def mempool_check_conditions_dict (env : MempoolEnv) :
    List (List ConditionVarPair) → Option Err
  | [] => none
  | conList :: rest =>
    match checkList env conList with
    | some e => some e
    | none => mempool_check_conditions_dict env rest

/-- An opcode is known when it is one of the five opcodes the dispatcher
tests. -/
def ConditionOpcode.isKnown : ConditionOpcode → Bool
  | .other _ => false
  | _ => true

/-- A fixed environment used for the concrete evaluations below. -/
def envC5 : MempoolEnv :=
  { intFromBytes := fun _ => some 0
    bundleRemovals := []
    unspent := { coinName := [], confirmedBlockIndex := 0 }
    peakHeight := 0
    currentTime := 0 }

end Chia.Mempool

namespace Chia.ProgramTypes

/-- Binary trees of atoms: the s-expression data that both tree-hash
functions in src/types/program.py recurse over.  `listp()` is true
exactly on the `pair` constructor, and `as_atom()` reads the `atom`
payload. -/
inductive SExp where
  | atom (a : Bytes)
  | pair (l r : SExp)
deriving DecidableEq, Repr

/-- Embeds the method Program._tree_hash (src/types/program.py lines
66-79).  std_hash (sha256 of the concatenation, from src/util/hash.py) is
an external collaborator and is passed as a function; the byte prefixes
b"\x02" and b"\x01" become the list heads 2 and 1. -/
def Program.tree_hash (stdHash : Bytes → Bytes) (precalculated : List Bytes) :
    SExp → Bytes
  | .pair l r =>
    let left := Program.tree_hash stdHash precalculated l
    let right := Program.tree_hash stdHash precalculated r
    stdHash (2 :: (left ++ right))
  | .atom a =>
    if a ∈ precalculated then a
    else stdHash (1 :: a)

/-- Embeds Program.get_tree_hash (lines 81-86): the variadic args become
the precalculated set. -/
def Program.get_tree_hash (stdHash : Bytes → Bytes) (args : List Bytes) (p : SExp) :
    Bytes :=
  Program.tree_hash stdHash args p

/-- Embeds the module-level function _tree_hash (src/types/program.py
lines 112-125), the copy of the recursion used by
SerializedProgram.get_tree_hash. -/
def tree_hash (stdHash : Bytes → Bytes) (precalculated : List Bytes) :
    SExp → Bytes
  | .pair l r =>
    let left := tree_hash stdHash precalculated l
    let right := tree_hash stdHash precalculated r
    stdHash (2 :: (left ++ right))
  | .atom a =>
    if a ∈ precalculated then a
    else stdHash (1 :: a)

/-- Embeds SerializedProgram.get_tree_hash (lines 155-164): the stored
buffer is deserialized with sexp_from_stream (an external collaborator,
passed as the `parse` function) and then hashed with the module-level
_tree_hash. -/
def SerializedProgram.get_tree_hash (parse : Bytes → SExp) (stdHash : Bytes → Bytes)
    (buf : Bytes) (args : List Bytes) : Bytes :=
  tree_hash stdHash args (parse buf)

end Chia.ProgramTypes

namespace Chia.Node

/-- The foliage-block data read by synced(): only the timestamp. -/
structure FoliageBlock where
  timestamp : Nat
deriving DecidableEq, Repr

/-- The peak block data read by synced(): a possibly missing foliage
block. -/
structure PeakBlock where
  foliageBlock : Option FoliageBlock
deriving DecidableEq, Repr

/-- Embeds FullNode.synced (src/full_node/full_node.py lines 353-364).
The peak returned by blockchain.get_block_peak, the clock value and the
sync-store flag are the inputs; time.time() is modelled as an integer
number of seconds. -/
def synced (fullPeak : Option PeakBlock) (now : Int) (syncMode : Bool) : Bool :=
  match fullPeak with
  | none => false
  | some p =>
    match p.foliageBlock with
    | none => false
    | some fb =>
      if (fb.timestamp : Int) < now - 60 * 20 then false
      else if syncMode then false
      else true

/-- ReceiveBlockResult from src/consensus/blockchain.py, as used by
full_node.py. -/
inductive ReceiveBlockResult where
  | NEW_PEAK
  | ADDED_AS_ORPHAN
  | ALREADY_HAVE_BLOCK
  | INVALID_BLOCK
  | DISCONNECTED_BLOCK
deriving DecidableEq, Repr

/-- Error tokens from src/util/errors.py that the full-node handlers
inspect; every other error value is wrapped by `otherErr`. -/
inductive NodeErr where
  | INVALID_PREV_BLOCK_HASH
  | otherErr (code : Nat)
deriving DecidableEq, Repr

/-- One entry of the list returned by
blockchain.pre_validate_blocks_multiprocessing. -/
structure PreValidationResult where
  error : Option NodeErr
  requiredIters : Option Nat
deriving DecidableEq, Repr

/-- Per-block inputs of the receive-batch loop: the block's
pre-validation result and the triple that blockchain.receive_block
returns for it when called. -/
structure StepInput where
  pv : PreValidationResult
  recvResult : ReceiveBlockResult × Option NodeErr × Option Nat
deriving DecidableEq, Repr

/-- Environment of receive_sub_block_batch: whether
pre_validate_blocks_multiprocessing returned None, and the per-block step
inputs in batch order. -/
structure BatchEnv where
  preValidationFailed : Bool
  steps : List StepInput
deriving DecidableEq, Repr

/-- Outcome of receive_sub_block_batch: either the returned triple
(success, advanced_peak, fork_height), or an AssertionError from the
`assert required_iters is not None` at line 652. -/
inductive BatchOutcome where
  | raisedAssert
  | returned (success advancedPeak : Bool) (forkHeight : Option Nat)
deriving DecidableEq, Repr

/-- First component of the returned triple. -/
def BatchOutcome.success : BatchOutcome → Bool
  | .returned s _ _ => s
  | .raisedAssert => false

/-- Second component of the returned triple. -/
def BatchOutcome.advancedPeak : BatchOutcome → Bool
  | .returned _ a _ => a
  | .raisedAssert => false

/-- The for-loop of receive_sub_block_batch (src/full_node/full_node.py
lines 645-664): a pre-validation error returns failure; receive_block's
NEW_PEAK sets advanced_peak, INVALID_BLOCK or DISCONNECTED_BLOCK returns
failure, and fork_height is reassigned by every receive_block call.  The
weight-proof segment creation after a block with a sub-epoch summary is
effect-only and does not touch the returned triple. -/
def receive_batch_loop : List StepInput → Bool → Option Nat → BatchOutcome
  | [], advancedPeak, forkHeight => .returned true advancedPeak forkHeight
  | s :: rest, advancedPeak, forkHeight =>
    if s.pv.error.isSome then .returned false advancedPeak forkHeight
    else if s.pv.requiredIters.isNone then .raisedAssert
    else
      let forkHeight2 := s.recvResult.2.2
      if s.recvResult.1 = .NEW_PEAK then receive_batch_loop rest true forkHeight2
      else if s.recvResult.1 = .INVALID_BLOCK ∨ s.recvResult.1 = .DISCONNECTED_BLOCK then
        .returned false advancedPeak forkHeight2
      else receive_batch_loop rest advancedPeak forkHeight2

/-- Embeds receive_sub_block_batch (lines 635-666).  When pre-validation
returns None the triple (False, False, None) is returned; otherwise the
blocks are processed in order with advanced_peak initially False and
fork_height initially 0. -/
def receive_sub_block_batch (env : BatchEnv) : BatchOutcome :=
  if env.preValidationFailed then .returned false false none
  else receive_batch_loop env.steps false (some 0)

/-- A step fails the batch when its pre-validation result carries an
error or its receive_block result is INVALID_BLOCK or
DISCONNECTED_BLOCK. -/
def StepInput.failing (s : StepInput) : Prop :=
  s.pv.error ≠ none ∨ s.recvResult.1 = .INVALID_BLOCK ∨
    s.recvResult.1 = .DISCONNECTED_BLOCK

instance (s : StepInput) : Decidable s.failing := by
  unfold StepInput.failing
  infer_instance

/-- A fixed batch environment used for concrete evaluation. -/
def envC2 : BatchEnv :=
  { preValidationFailed := false
    steps := [{ pv := { error := none, requiredIters := some 7 }
                recvResult := (.NEW_PEAK, none, some 0) }] }

/-- Third component of the returned triple. -/
def BatchOutcome.forkHeight : BatchOutcome → Option Nat
  | .returned _ _ f => f
  | .raisedAssert => none

/-- The first block fetched by short_sync_batch: only its
prev_header_hash is read. -/
structure FetchedBlock where
  prevHeaderHash : Bytes
deriving DecidableEq, Repr

/-- Environment of short_sync_batch: the peer's response to the first
single-block request (`none` models a missing or wrong-typed response),
the blockchain membership test, the batch_syncing membership of the peer,
and per-window oracles for the download loop. -/
structure ShortSyncEnv where
  containsSubBlock : Bytes → Bool
  firstResponse : Option FetchedBlock
  peerInBatchSyncing : Bool
  windowResponse : Nat → Bool
  windowBatch : Nat → BatchEnv
  peakAvailable : Nat → Bool
  batchSize : Nat

/-- Observable outcome of short_sync_batch: the returned boolean (`none`
models a raised exception), whether the peer was added to and removed
from batch_syncing, and how many receive_sub_block_batch and
peak_post_processing calls ran. -/
structure ShortSyncOutcome where
  returned : Option Bool
  addedBatchSyncing : Bool
  removedBatchSyncing : Bool
  batchCalls : Nat
  peakPostCalls : Nat
deriving DecidableEq, Repr

/-- Number of iterations of `range(start, target + 1, batch_size)`. -/
def numWindows (start target batchSize : Nat) : Nat :=
  (target + 1 - start + batchSize - 1) / batchSize

/-- The download loop of short_sync_batch (lines 194-213), one iteration
per request window, counting batch and peak-post-processing calls; a
missing window response, a failed batch or a failed assertion raises. -/
def short_sync_loop (env : ShortSyncEnv) :
    List Nat → Nat → Nat → (Option Unit × Nat × Nat)
  | [], calls, posts => (some (), calls, posts)
  | k :: rest, calls, posts =>
    if env.windowResponse k = false then (none, calls, posts)
    else
      let out := receive_sub_block_batch (env.windowBatch k)
      if out.success = false then (none, calls + 1, posts)
      else if out.advancedPeak then
        if env.peakAvailable k ∧ out.forkHeight ≠ none then
          short_sync_loop env rest (calls + 1) (posts + 1)
        else (none, calls + 1, posts)
      else short_sync_loop env rest (calls + 1) posts

/-- Embeds short_sync_batch (src/full_node/full_node.py lines 158-218).
With start_sub_height > 0 the first block is fetched alone; a missing
response raises, and a first block whose prev_header_hash is not in our
blockchain returns False before anything else happens.  Then the peer is
added to batch_syncing (unless already present, which returns True), the
window loop runs, and the peer is removed on both the success and the
exception path. -/
def short_sync_batch (env : ShortSyncEnv) (start_sub_height target_sub_height : Nat) :
    ShortSyncOutcome :=
  let afterGate : ShortSyncOutcome :=
    if env.peerInBatchSyncing then
      { returned := some true, addedBatchSyncing := false,
        removedBatchSyncing := false, batchCalls := 0, peakPostCalls := 0 }
    else
      let n := numWindows start_sub_height target_sub_height env.batchSize
      match short_sync_loop env (List.range n) 0 0 with
      | (some _, calls, posts) =>
        { returned := some true, addedBatchSyncing := true,
          removedBatchSyncing := true, batchCalls := calls, peakPostCalls := posts }
      | (none, calls, posts) =>
        { returned := none, addedBatchSyncing := true,
          removedBatchSyncing := true, batchCalls := calls, peakPostCalls := posts }
  if 0 < start_sub_height then
    match env.firstResponse with
    | none =>
      { returned := none, addedBatchSyncing := false,
        removedBatchSyncing := false, batchCalls := 0, peakPostCalls := 0 }
    | some first =>
      if env.containsSubBlock first.prevHeaderHash = false then
        { returned := some false, addedBatchSyncing := false,
          removedBatchSyncing := false, batchCalls := 0, peakPostCalls := 0 }
      else afterGate
  else afterGate

/-- A fixed short-sync environment used for concrete evaluation. -/
def envC7 : ShortSyncEnv :=
  { containsSubBlock := fun _ => false
    firstResponse := some { prevHeaderHash := [3] }
    peerInBatchSyncing := false
    windowResponse := fun _ => true
    windowBatch := fun _ => envC2
    peakAvailable := fun _ => true
    batchSize := 32 }

/-- The peak data read by new_peak: cumulative weight and height. -/
structure PeakInfo where
  weight : Nat
  subBlockHeight : Nat
deriving DecidableEq, Repr

/-- The full_node_protocol.NewPeak message fields read by the handler. -/
structure NewPeakRequest where
  headerHash : Bytes
  subBlockHeight : Nat
  weight : Nat
deriving DecidableEq, Repr

/-- Environment of new_peak: blockchain membership, the current peak, the
sync store's mode and target, the config thresholds, the
WEIGHT_PROOF_RECENT_BLOCKS constant, and the outcomes of the three
sub-sync calls (Except.error models an exception propagating out of the
awaited call). -/
structure NewPeakEnv where
  containsSubBlock : Bytes → Bool
  peak : Option PeakInfo
  syncMode : Bool
  syncTargetHash : Option Bytes
  syncTargetHeight : Option Nat
  peerInPeakPeers : Bool
  targetPeakResponse : Option Nat
  shortSyncThreshold : Nat
  syncThreshold : Nat
  weightProofRecentBlocks : Nat
  backtrackResult : Except Unit Bool
  batchFromZeroResult : Except Unit Bool
  batchResult : Except Unit Bool

/-- Observable outcome of new_peak: the (header_hash, weight, height)
triples recorded in the sync store via add_peak_peer, which sync
strategies were attempted or launched, and whether an exception
propagated. -/
structure NewPeakOutcome where
  peakPeerAdds : List (Bytes × Nat × Nat)
  backtrackStarted : Bool
  batchStarted : Bool
  longSyncLaunched : Bool
  raised : Bool
deriving DecidableEq, Repr

/-- Embeds FullNode.new_peak (src/full_node/full_node.py lines 251-313).
The (peer, peak) pair is always recorded first; the handler returns when
the block is already held or when the local peak is STRICTLY heavier than
the announced weight (line 271 tests peak.weight > request.weight); in
sync mode only peer information for the sync target is refreshed;
otherwise backtrack sync, batch sync and the long-sync task are attempted
in order. -/
def new_peak (env : NewPeakEnv) (request : NewPeakRequest) : NewPeakOutcome :=
  let adds0 := [(request.headerHash, request.weight, request.subBlockHeight)]
  if env.containsSubBlock request.headerHash then
    { peakPeerAdds := adds0, backtrackStarted := false, batchStarted := false,
      longSyncLaunched := false, raised := false }
  else
    let currPeakHeight := match env.peak with
      | none => 0
      | some p => p.subBlockHeight
    if (match env.peak with
        | some p => decide (request.weight < p.weight)
        | none => false) then
      { peakPeerAdds := adds0, backtrackStarted := false, batchStarted := false,
        longSyncLaunched := false, raised := false }
    else if env.syncMode then
      let extra : List (Bytes × Nat × Nat) :=
        match env.syncTargetHash, env.syncTargetHeight with
        | some th, some tht =>
          if request.headerHash ≠ th ∧ env.peerInPeakPeers = false then
            match env.targetPeakResponse with
            | some w => [(th, w, tht)]
            | none => []
          else []
        | _, _ => []
      { peakPeerAdds := adds0 ++ extra, backtrackStarted := false,
        batchStarted := false, longSyncLaunched := false, raised := false }
    else
      let afterBacktrack : Bool → NewPeakOutcome := fun bt =>
        if request.subBlockHeight < env.weightProofRecentBlocks then
          match env.batchFromZeroResult with
          | .error _ =>
            { peakPeerAdds := adds0, backtrackStarted := bt, batchStarted := true,
              longSyncLaunched := false, raised := true }
          | .ok _ =>
            { peakPeerAdds := adds0, backtrackStarted := bt, batchStarted := true,
              longSyncLaunched := false, raised := false }
        else if request.subBlockHeight < currPeakHeight + env.syncThreshold then
          match env.batchResult with
          | .error _ =>
            { peakPeerAdds := adds0, backtrackStarted := bt, batchStarted := true,
              longSyncLaunched := false, raised := true }
          | .ok true =>
            { peakPeerAdds := adds0, backtrackStarted := bt, batchStarted := true,
              longSyncLaunched := false, raised := false }
          | .ok false =>
            { peakPeerAdds := adds0, backtrackStarted := bt, batchStarted := true,
              longSyncLaunched := true, raised := false }
        else
          { peakPeerAdds := adds0, backtrackStarted := bt, batchStarted := false,
            longSyncLaunched := true, raised := false }
      if request.subBlockHeight ≤ currPeakHeight + env.shortSyncThreshold then
        match env.backtrackResult with
        | .error _ =>
          { peakPeerAdds := adds0, backtrackStarted := true, batchStarted := false,
            longSyncLaunched := false, raised := true }
        | .ok true =>
          { peakPeerAdds := adds0, backtrackStarted := true, batchStarted := false,
            longSyncLaunched := false, raised := false }
        | .ok false => afterBacktrack true
      else afterBacktrack false

/-- A fixed new_peak environment whose local peak weight equals the
announced weight. -/
def envC1 : NewPeakEnv :=
  { containsSubBlock := fun _ => false
    peak := some { weight := 5, subBlockHeight := 10 }
    syncMode := false
    syncTargetHash := none
    syncTargetHeight := none
    peerInPeakPeers := false
    targetPeakResponse := none
    shortSyncThreshold := 7
    syncThreshold := 50
    weightProofRecentBlocks := 500
    backtrackResult := .ok true
    batchFromZeroResult := .ok true
    batchResult := .ok true }

/-- A NewPeak announcement with the same weight as the peak of envC1 and
one block higher. -/
def reqC1 : NewPeakRequest := { headerHash := [1], subBlockHeight := 11, weight := 5 }

/-- The last recent-chain entry of a weight proof, as read by _sync. -/
structure WpLastEntry where
  subBlockHeight : Nat
  weight : Nat
deriving DecidableEq, Repr

/-- Environment of _sync: the sync store's mode on entry, the shutdown
flag, the peak-collection outcome, the target peak returned by
get_heaviest_peak, the weight-proof response (`none` models a missing or
wrong-typed response), the validation verdict and the behaviour of the
final download phase. -/
structure SyncEnv where
  syncModeAtStart : Bool
  shutDown : Bool
  fewerThanThreePeaks : Bool
  targetPeak : Option (Bytes × Nat × Nat)
  peersWithPeakNonempty : Bool
  localPeakWeight : Option Nat
  wpResponse : Option WpLastEntry
  wpValidated : Bool
  syncFromForkRaises : Bool

/-- How the try-block of _sync ends: an early return, a normal
completion, or an exception (recording whether the weight-proof peer's
connection was closed first). -/
inductive SyncBodyRes where
  | returnedEarly
  | completed
  | raisedWith (closedWpPeer : Bool)
deriving DecidableEq, Repr

/-- Observable outcome of _sync: whether sync mode was set, whether the
weight-proof peer was closed, whether the body aborted with an exception
(caught by the except clauses), whether _finish_sync ran, and the final
sync-mode flag. -/
structure SyncOutcome where
  setSyncModeTrue : Bool
  wpPeerClosed : Bool
  abortedSync : Bool
  finishSyncRan : Bool
  finalSyncMode : Bool
deriving DecidableEq, Repr

/-- The try-block of _sync (src/full_node/full_node.py lines 454-537):
collect peaks (returning early when shut down with fewer than three
peaks), pick the heaviest peak, pick a weight-proof peer, raise when
already caught up, close the peer and raise when the response is missing
or its last recent-chain entry disagrees with the announced height or
weight, raise when validation fails, then download from the fork
point. -/
def sync_body (env : SyncEnv) : SyncBodyRes :=
  if env.shutDown ∧ env.fewerThanThreePeaks then .returnedEarly
  else
    match env.targetPeak with
    | none => .raisedWith false
    | some (_hh, targetHeight, targetWeight) =>
      if env.peersWithPeakNonempty = false then .raisedWith false
      else if (match env.localPeakWeight with
          | some lw => decide (targetWeight ≤ lw)
          | none => false) then .raisedWith false
      else
        match env.wpResponse with
        | none => .raisedWith true
        | some entry =>
          if entry.subBlockHeight ≠ targetHeight then .raisedWith true
          else if entry.weight ≠ targetWeight then .raisedWith true
          else if env.wpValidated = false then .raisedWith false
          else if env.syncFromForkRaises then .raisedWith false
          else .completed

/-- Embeds FullNode._sync (lines 436-546) together with _finish_sync
(lines 668-688): a no-op when already in sync mode; otherwise sync mode
is set, the body runs with exceptions caught, and the finally clause runs
_finish_sync (which sets sync mode back to False) unless the node is
shutting down. -/
def sync (env : SyncEnv) : SyncOutcome :=
  if env.syncModeAtStart then
    { setSyncModeTrue := false, wpPeerClosed := false, abortedSync := false,
      finishSyncRan := false, finalSyncMode := true }
  else
    let body := sync_body env
    let closed := match body with
      | .raisedWith c => c
      | _ => false
    let aborted := match body with
      | .raisedWith _ => true
      | _ => false
    if env.shutDown then
      { setSyncModeTrue := true, wpPeerClosed := closed, abortedSync := aborted,
        finishSyncRan := false, finalSyncMode := true }
    else
      { setSyncModeTrue := true, wpPeerClosed := closed, abortedSync := aborted,
        finishSyncRan := true, finalSyncMode := false }

/-- A fixed sync environment in which the weight-proof peer reports a
wrong last-entry height. -/
def envC4 : SyncEnv :=
  { syncModeAtStart := false
    shutDown := false
    fewerThanThreePeaks := false
    targetPeak := some ([9], 1000, 800)
    peersWithPeakNonempty := true
    localPeakWeight := some 100
    wpResponse := some { subBlockHeight := 999, weight := 800 }
    wpValidated := true
    syncFromForkRaises := false }

/-- Messages broadcast by peak_post_processing (lines 704-806). -/
inductive MessageKind where
  | newSignagePointOrEos
  | timelordNewPeak
  | fullNodeNewPeak
  | walletNewPeak
deriving DecidableEq, Repr

/-- Environment of peak_post_processing: the sync-store mode, whether
full_node_store.new_peak surfaced a pending end-of-slot, and the new
record's height. -/
structure PeakPostEnv where
  syncMode : Bool
  addedEos : Bool
  recordHeight : Nat
deriving DecidableEq, Repr

/-- Effect-level embedding of peak_post_processing: the broadcast list in
program order (end-of-slot to full nodes when one was added; outside sync
mode the timelord peak and the full-node NewPeak; always the wallet
NewPeak) and whether the seen-unfinished set was cleared (every 1000
blocks). -/
def peak_post_processing (env : PeakPostEnv) : List MessageKind × Bool :=
  let m1 := if env.addedEos then [MessageKind.newSignagePointOrEos] else []
  let clearSeen := decide (env.recordHeight % 1000 = 0)
  let m2 := if env.syncMode = false then
      [MessageKind.timelordNewPeak, MessageKind.fullNodeNewPeak]
    else []
  (m1 ++ m2 ++ [MessageKind.walletNewPeak], clearSeen)

/-- Environment of respond_sub_block: the sync-store mode, blockchain
membership, the single-block pre-validation result (`none` models a None
return, which raises), the receive_block triple, the peak afterwards and
the peak-post-processing inputs. -/
structure RespondSubBlockEnv where
  syncMode : Bool
  containsSubBlock : Bytes → Bool
  preValidation : Option PreValidationResult
  receiveBlock : ReceiveBlockResult × Option NodeErr × Option Nat
  peakAfterHeight : Option Nat
  ppp : PeakPostEnv

/-- Observable outcome of respond_sub_block: whether
blockchain.receive_block ran (the only way a block is added or the peak
moves), whether peak_post_processing ran, the broadcast messages, the
height below which temporary data was cleared, whether sync peer info was
cleared, and whether an exception propagated. -/
structure RespondSubBlockResult where
  receiveBlockCalled : Bool
  peakPostCalled : Bool
  messages : List MessageKind
  clearedTempBelow : Option Nat
  clearedSyncInfo : Bool
  raised : Bool
deriving DecidableEq, Repr

/-- Embeds respond_sub_block (src/full_node/full_node.py lines 808-900).
The first statement returns None while sync mode is set; then known
blocks return; a missing pre-validation raises; an
INVALID_PREV_BLOCK_HASH pre-validation error becomes DISCONNECTED_BLOCK
without calling receive_block, any other pre-validation error raises;
otherwise receive_block runs and its result is dispatched; NEW_PEAK and
ADDED_AS_ORPHAN fall through to the cleanup tail. -/
def respond_sub_block (env : RespondSubBlockEnv) (headerHash : Bytes) :
    RespondSubBlockResult :=
  let tail : Bool → List MessageKind → RespondSubBlockResult := fun pppRan msgs =>
    match env.peakAfterHeight with
    | none =>
      { receiveBlockCalled := true, peakPostCalled := pppRan, messages := msgs,
        clearedTempBelow := none, clearedSyncInfo := false, raised := true }
    | some h =>
      { receiveBlockCalled := true, peakPostCalled := pppRan, messages := msgs,
        clearedTempBelow := some (h - 50),
        clearedSyncInfo := decide (h % 1000 = 0) && !env.syncMode, raised := false }
  if env.syncMode then
    { receiveBlockCalled := false, peakPostCalled := false, messages := [],
      clearedTempBelow := none, clearedSyncInfo := false, raised := false }
  else if env.containsSubBlock headerHash then
    { receiveBlockCalled := false, peakPostCalled := false, messages := [],
      clearedTempBelow := none, clearedSyncInfo := false, raised := false }
  else
    match env.preValidation with
    | none =>
      { receiveBlockCalled := false, peakPostCalled := false, messages := [],
        clearedTempBelow := none, clearedSyncInfo := false, raised := true }
    | some pv =>
      match pv.error with
      | some e =>
        if e = NodeErr.INVALID_PREV_BLOCK_HASH then
          { receiveBlockCalled := false, peakPostCalled := false, messages := [],
            clearedTempBelow := none, clearedSyncInfo := false, raised := false }
        else
          { receiveBlockCalled := false, peakPostCalled := false, messages := [],
            clearedTempBelow := none, clearedSyncInfo := false, raised := true }
      | none =>
        match env.receiveBlock.1 with
        | .ALREADY_HAVE_BLOCK =>
          { receiveBlockCalled := true, peakPostCalled := false, messages := [],
            clearedTempBelow := none, clearedSyncInfo := false, raised := false }
        | .INVALID_BLOCK =>
          { receiveBlockCalled := true, peakPostCalled := false, messages := [],
            clearedTempBelow := none, clearedSyncInfo := false, raised := true }
        | .DISCONNECTED_BLOCK =>
          { receiveBlockCalled := true, peakPostCalled := false, messages := [],
            clearedTempBelow := none, clearedSyncInfo := false, raised := false }
        | .NEW_PEAK =>
          if env.peakAfterHeight = none ∨ env.receiveBlock.2.2 = none then
            { receiveBlockCalled := true, peakPostCalled := false, messages := [],
              clearedTempBelow := none, clearedSyncInfo := false, raised := true }
          else tail true (peak_post_processing env.ppp).1
        | .ADDED_AS_ORPHAN => tail false []

/-- A fixed respond_sub_block environment with sync mode set. -/
def envC8 : RespondSubBlockEnv :=
  { syncMode := true
    containsSubBlock := fun _ => false
    preValidation := some { error := none, requiredIters := some 1 }
    receiveBlock := (.NEW_PEAK, none, some 0)
    peakAfterHeight := some 100
    ppp := { syncMode := true, addedEos := false, recordHeight := 100 } }

/-- A sub-epoch summary: only new_difficulty is read. -/
structure SubEpochSummaryM where
  newDifficulty : Option Nat
deriving DecidableEq, Repr

/-- The SubBlockRecord fields read by the unfinished-block and
infusion-point handlers; sp_total_iters, a derived quantity computed in
src/consensus/sub_block_record.py (outside src/), is carried as a
field. -/
structure SubBlockRecordM where
  headerHash : Bytes
  prevHash : Bytes
  subBlockHeight : Nat
  deficit : Nat
  firstInSubSlot : Bool
  subEpochSummaryIncluded : Option SubEpochSummaryM
  spTotalIters : Nat
  rewardInfusionNewChallenge : Bytes
deriving DecidableEq, Repr

/-- A finished sub-slot: only challenge_chain.new_difficulty is read by
the first-sub-slot-of-epoch checks. -/
structure SlotM where
  newDifficulty : Option Nat
deriving DecidableEq, Repr

/-- The UnfinishedBlock fields read by respond_unfinished_sub_block:
its partial hash (block.get_hash()), its trunk hash
(block.reward_chain_sub_block.get_hash()), and the consensus fields. -/
structure UnfinishedBlockM where
  partialHash : Bytes
  trunkHash : Bytes
  prevHeaderHash : Bytes
  totalIters : Nat
  signagePointIndex : Nat
  finishedSubSlots : List SlotM
  posSsCcChallengeHash : Bytes
  rcSpVdfChallenge : Option Bytes
deriving DecidableEq, Repr

/-- The injected consensus constants read by these handlers.
is_overflow_sub_block (src/consensus/pot_iterations.py, outside src/) is
a pure function of the constants and the signage point index and is
injected as the predicate isOverflow. -/
structure ConstantsM where
  GENESIS_PREV_HASH : Bytes
  MAX_SUB_SLOT_SUB_BLOCKS : Nat
  FIRST_CC_CHALLENGE : Bytes
  FIRST_RC_CHALLENGE : Bytes
  GENESIS_PRE_FARM_POOL_PUZZLE_HASH : Bytes
  isOverflow : Nat → Bool

/-- Association lookup standing for blockchain.try_sub_block /
sub_block_record. -/
def lookupRecord (records : List (Bytes × SubBlockRecordM)) (hh : Bytes) :
    Option SubBlockRecordM :=
  (records.find? (fun r => r.1 == hh)).map Prod.snd

/-- The walk back to a record with first_in_sub_slot (lines 956-958 and
1167-1169); fuel bounds the while loop, one unit per prev_hash step. -/
def walkToFirstInSubSlot (records : List (Bytes × SubBlockRecordM)) :
    Nat → Option SubBlockRecordM → Option SubBlockRecordM
  | 0, curr => curr
  | fuel + 1, curr =>
    match curr with
    | none => none
    | some c =>
      if c.firstInSubSlot then some c
      else walkToFirstInSubSlot records fuel (lookupRecord records c.prevHash)

/-- The counting variant of the walk used by respond_unfinished_sub_block
(lines 954-958): also counts the sub-blocks in the sub slot. -/
def walkCountInSubSlot (records : List (Bytes × SubBlockRecordM)) :
    Nat → Option SubBlockRecordM → Nat → (Option SubBlockRecordM × Nat)
  | 0, curr, n => (curr, n)
  | fuel + 1, curr, n =>
    match curr with
    | none => (none, n)
    | some c =>
      if c.firstInSubSlot then (some c, n)
      else walkCountInSubSlot records fuel (lookupRecord records c.prevHash) (n + 1)

/-- Environment of respond_unfinished_sub_block: the constants, the
blockchain records and peak, and the collaborator calls
can_finish_sub_and_full_epoch, validate_unfinished_block (Except.error
models an error code, which raises ConsensusError),
next_sub_epoch_summary and full_node_store.get_sub_slot (mapped to the
reward-chain hash of its first component). -/
structure UnfEnv where
  constants : ConstantsM
  records : List (Bytes × SubBlockRecordM)
  peak : Option SubBlockRecordM
  canFinishEpoch : Nat → Nat → Option Bytes → Bool
  validateUnfinished : Except Nat Nat
  nextSes : Option SubEpochSummaryM
  getSubSlotRc : Bytes → Option Bytes

/-- State of the FullNodeStore pieces touched by the unfinished-block
and infusion handlers: the seen-unfinished partial hashes and the
unfinished blocks keyed by trunk hash. -/
structure UnfStoreState where
  seenUnfinished : List Bytes
  unfinishedBlocks : List (Bytes × UnfinishedBlockM)
deriving DecidableEq, Repr

/-- Modelled from the spec: FullNodeStore.seen_unfinished_block (the
FullNodeStore module is not under src/).  Per the spec's duplicate rule
("Drop if the partial hash is in the seen-unfinished set", "'seen
unfinished' must contain both P1 and P2") and the handler's comment
("Adds the unfinished block to seen, and check if it's seen before"),
it records the partial hash and reports whether it was already
present. -/
def seen_unfinished_block (s : UnfStoreState) (h : Bytes) : Bool × UnfStoreState :=
  if h ∈ s.seenUnfinished then (true, s)
  else (false, { s with seenUnfinished := h :: s.seenUnfinished })

/-- Modelled from the spec: FullNodeStore.get_unfinished_block looks a
stored unfinished block up by its trunk (reward-chain) hash. -/
def get_unfinished_block (s : UnfStoreState) (rcHash : Bytes) :
    Option UnfinishedBlockM :=
  (s.unfinishedBlocks.find? (fun r => r.1 == rcHash)).map Prod.snd

/-- Modelled from the spec: FullNodeStore.add_unfinished_block stores the
block keyed by its trunk hash ("Store the unfinished block keyed by
trunk hash"). -/
def add_unfinished_block (s : UnfStoreState) (b : UnfinishedBlockM) : UnfStoreState :=
  { s with unfinishedBlocks := (b.trunkHash, b) :: s.unfinishedBlocks }

/-- The prev_sb computation of respond_unfinished_sub_block (lines
940-943). -/
def unfPrevSb (env : UnfEnv) (block : UnfinishedBlockM) : Option SubBlockRecordM :=
  if block.prevHeaderHash = env.constants.GENESIS_PREV_HASH then none
  else lookupRecord env.records block.prevHeaderHash

/-- The sub-slot census of respond_unfinished_sub_block (lines 947-978):
returns (first_ss_new_epoch, num_sub_blocks_in_ss).  With finished sub
slots present the first slot's new_difficulty decides; otherwise the
chain is walked back to the first block in the sub slot, its included
sub-epoch summary is inspected, and failing that
can_finish_sub_and_full_epoch on the previous block decides. -/
def unfEpochFlags (env : UnfEnv) (block : UnfinishedBlockM) : Bool × Nat :=
  match block.finishedSubSlots with
  | s0 :: _ => (s0.newDifficulty.isSome, 1)
  | [] =>
    let start := lookupRecord env.records block.prevHeaderHash
    let walked := walkCountInSubSlot env.records (env.records.length + 1) start 2
    let cond : Bool := match walked.1 with
      | some c => c.firstInSubSlot &&
          (match c.subEpochSummaryIncluded with
           | some ses => ses.newDifficulty.isSome
           | none => false)
      | none => false
    if cond then (true, walked.2)
    else
      match unfPrevSb env block with
      | some p =>
        let prevPrev := lookupRecord env.records p.prevHash
        (env.canFinishEpoch p.subBlockHeight p.deficit
          (if prevPrev.isSome then some p.headerHash else none), walked.2)
      | none => (false, walked.2)

/-- Observable outcome of respond_unfinished_sub_block: the store state
afterwards, whether the block was stored, whether the timelord and
full-node broadcasts went out, and whether an exception propagated. -/
structure UnfOutcome where
  state : UnfStoreState
  stored : Bool
  sentTimelords : Bool
  sentFullNodes : Bool
  raised : Bool
deriving DecidableEq, Repr

/-- Embeds respond_unfinished_sub_block (src/full_node/full_node.py lines
902-1061).  In order: the seen-partial-hash check (which records the
hash), the stored-trunk-hash check, the disconnected-parent check, the
behind-the-peak check, the overflow-in-first-epoch-sub-slot check, the
sub-slot census bound, validation (an error raises), the concurrent
trunk re-check, the store, and the rc_prev computation whose missing
sub-slot case returns after storing; finally the timelord and full-node
broadcasts. -/
def respond_unfinished_sub_block (env : UnfEnv) (s0 : UnfStoreState)
    (block : UnfinishedBlockM) : UnfOutcome :=
  let seenRes := seen_unfinished_block s0 block.partialHash
  let s1 := seenRes.2
  if seenRes.1 then
    { state := s1, stored := false, sentTimelords := false,
      sentFullNodes := false, raised := false }
  else if (get_unfinished_block s1 block.trunkHash).isSome then
    { state := s1, stored := false, sentTimelords := false,
      sentFullNodes := false, raised := false }
  else if block.prevHeaderHash ≠ env.constants.GENESIS_PREV_HASH ∧
      (lookupRecord env.records block.prevHeaderHash).isNone then
    { state := s1, stored := false, sentTimelords := false,
      sentFullNodes := false, raised := false }
  else if (match env.peak with
      | some p => decide (block.totalIters < p.spTotalIters)
      | none => false) then
    { state := s1, stored := false, sentTimelords := false,
      sentFullNodes := false, raised := false }
  else
    let flags := unfEpochFlags env block
    if env.constants.isOverflow block.signagePointIndex ∧ flags.1 then
      { state := s1, stored := false, sentTimelords := false,
        sentFullNodes := false, raised := false }
    else if env.constants.MAX_SUB_SLOT_SUB_BLOCKS < flags.2 then
      { state := s1, stored := false, sentTimelords := false,
        sentFullNodes := false, raised := false }
    else
      match env.validateUnfinished with
      | .error _ =>
        { state := s1, stored := false, sentTimelords := false,
          sentFullNodes := false, raised := true }
      | .ok _requiredIters =>
        if (get_unfinished_block s1 block.trunkHash).isSome then
          { state := s1, stored := false, sentTimelords := false,
            sentFullNodes := false, raised := false }
        else
          let s2 := add_unfinished_block s1 block
          let rcPrev : Option Bytes :=
            if block.signagePointIndex = 0 then
              match env.getSubSlotRc block.posSsCcChallengeHash with
              | none =>
                if block.posSsCcChallengeHash = env.constants.FIRST_CC_CHALLENGE then
                  some env.constants.FIRST_RC_CHALLENGE
                else none
              | some rc => some rc
            else block.rcSpVdfChallenge
          match rcPrev with
          | none =>
            if block.signagePointIndex = 0 then
              { state := s2, stored := true, sentTimelords := false,
                sentFullNodes := false, raised := false }
            else
              { state := s2, stored := true, sentTimelords := false,
                sentFullNodes := false, raised := true }
          | some _ =>
            { state := s2, stored := true, sentTimelords := true,
              sentFullNodes := true, raised := false }

/-- An end-of-slot entry of full_node_store.finished_sub_slots: the eos
object may be absent; when present its reward-chain hash and its
end_of_slot_vdf challenge are read. -/
structure EosEntryM where
  eos : Option (Bytes × Bytes)
deriving DecidableEq, Repr

/-- The fields of the FullBlock assembled by unfinished_block_to_full_block
that new_infusion_point_vdf reads afterwards. -/
structure FullBlockAsmM where
  poolTargetPuzzleHash : Bytes
  poolTargetHeight : Nat
  prevSubBlockHash : Bytes
  poolSigVerifies : Bool
  finishedSubSlots : List SlotM
deriving DecidableEq, Repr

/-- The timelord_protocol.NewInfusionPointVDF fields the handler reads. -/
structure InfusionRequestM where
  unfinishedRewardHash : Bytes
  rcIpVdfChallenge : Bytes
deriving DecidableEq, Repr

/-- Environment of new_infusion_point_vdf: the constants, the
FullNodeStore state, the finished-sub-slot entries, the blockchain
records and peak, full_node_store.get_sub_slot (mapped to its
start-iters component), and the block assembled by
unfinished_block_to_full_block. -/
structure InfusionEnv where
  constants : ConstantsM
  unfStore : UnfStoreState
  finishedSubSlots : List EosEntryM
  records : List (Bytes × SubBlockRecordM)
  peak : Option SubBlockRecordM
  getSubSlotStartIters : Bytes → Option Nat
  buildFullBlock : FullBlockAsmM

/-- The end-of-slot backtracking of new_infusion_point_vdf (lines
1078-1083): the target reward-chain hash is rewritten by each matching
end-of-slot object, scanning the store in reverse. -/
def infusionTarget (env : InfusionEnv) (req : InfusionRequestM) : Bytes :=
  env.finishedSubSlots.reverse.foldl
    (fun t e =>
      match e.eos with
      | some (rcHash, eosChallenge) => if rcHash = t then eosChallenge else t
      | none => t)
    req.rcIpVdfChallenge

/-- The ten-step scan from the peak for the previous block (lines
1089-1098). -/
def scanForPrev (records : List (Bytes × SubBlockRecordM)) :
    Nat → Option SubBlockRecordM → Bytes → Option SubBlockRecordM
  | 0, _, _ => none
  | fuel + 1, curr, target =>
    match curr with
    | none => none
    | some c =>
      if c.rewardInfusionNewChallenge = target then some c
      else scanForPrev records fuel (lookupRecord records c.prevHash) target

/-- Resolution of prev_sb in new_infusion_point_vdf: pre-genesis when the
backtracked target is the first reward-chain challenge, a found record,
or a cache-for-later (add_to_future_ip) when the scan fails. -/
inductive PrevSbRes where
  | preGenesis
  | found (sb : SubBlockRecordM)
  | cached
deriving DecidableEq, Repr

/-- The prev_sb computation of new_infusion_point_vdf (lines
1076-1104). -/
def infusionPrevSb (env : InfusionEnv) (req : InfusionRequestM) : PrevSbRes :=
  let target := infusionTarget env req
  if target = env.constants.FIRST_RC_CHALLENGE then .preGenesis
  else
    match scanForPrev env.records 10 env.peak target with
    | some sb => .found sb
    | none => .cached

/-- Embeds has_valid_pool_sig (src/full_node/full_node.py lines 690-702):
a block claiming the genesis pre-farm pool target with a non-genesis
parent must carry a verifying pool signature (AugSchemeMPL.verify is the
injected poolSigVerifies flag). -/
def has_valid_pool_sig (c : ConstantsM) (block : FullBlockAsmM) : Bool :=
  if (block.poolTargetPuzzleHash = c.GENESIS_PRE_FARM_POOL_PUZZLE_HASH ∧
        block.poolTargetHeight = 0) ∧
      block.prevSubBlockHash ≠ c.GENESIS_PREV_HASH then
    block.poolSigVerifies
  else true

/-- The first-sub-slot-of-epoch test of new_infusion_point_vdf (lines
1159-1176), computed on the assembled block and prev_sb. -/
def infusionFirstSsNewEpoch (env : InfusionEnv) (block : FullBlockAsmM)
    (prev_sb : Option SubBlockRecordM) : Bool :=
  match block.finishedSubSlots with
  | s0 :: _ => s0.newDifficulty.isSome
  | [] =>
    match walkToFirstInSubSlot env.records (env.records.length + 1) prev_sb with
    | some c => c.firstInSubSlot &&
        (match c.subEpochSummaryIncluded with
         | some ses => ses.newDifficulty.isSome
         | none => false)
    | none => false

/-- Observable outcome of new_infusion_point_vdf: whether the assembled
FullBlock was submitted via respond_sub_block, and whether the request
was cached for a future infusion point. -/
structure InfusionOutcome where
  submitted : Bool
  futureIpCached : Bool
deriving DecidableEq, Repr

/-- The tail of new_infusion_point_vdf after prev_sb resolution (lines
1106-1184): the overflow flag, the sub-slot start iters (a missing sub
slot returns), the block assembly, the pool-signature check, the
first-sub-slot-of-epoch re-check against overflow, and finally the
submission through respond_sub_block (whose ConsensusError is caught). -/
def infusionTail (env : InfusionEnv) (ub : UnfinishedBlockM)
    (prev_sb : Option SubBlockRecordM) : InfusionOutcome :=
  let overflow := env.constants.isOverflow ub.signagePointIndex
  let startIters : Option Nat :=
    if ub.posSsCcChallengeHash = env.constants.FIRST_CC_CHALLENGE then some 0
    else env.getSubSlotStartIters ub.posSsCcChallengeHash
  match startIters with
  | none => { submitted := false, futureIpCached := false }
  | some _ =>
    let block := env.buildFullBlock
    if has_valid_pool_sig env.constants block = false then
      { submitted := false, futureIpCached := false }
    else
      let first_ss_new_epoch := infusionFirstSsNewEpoch env block prev_sb
      if first_ss_new_epoch ∧ overflow then
        { submitted := false, futureIpCached := false }
      else { submitted := true, futureIpCached := false }

/-- Embeds new_infusion_point_vdf (src/full_node/full_node.py lines
1063-1184): an unknown unfinished reward hash is a no-op, an unresolved
prev block caches the request, and otherwise the tail runs. -/
def new_infusion_point_vdf (env : InfusionEnv) (req : InfusionRequestM) :
    InfusionOutcome :=
  match get_unfinished_block env.unfStore req.unfinishedRewardHash with
  | none => { submitted := false, futureIpCached := false }
  | some ub =>
    match infusionPrevSb env req with
    | .cached => { submitted := false, futureIpCached := true }
    | .preGenesis => infusionTail env ub none
    | .found sb => infusionTail env ub (some sb)

/-- The tail part of infusionEpochFlags, mirroring infusionTail. -/
def infusionEpochFlagsTail (env : InfusionEnv) (ub : UnfinishedBlockM)
    (prev_sb : Option SubBlockRecordM) : Option (Bool × Bool) :=
  let overflow := env.constants.isOverflow ub.signagePointIndex
  let startIters : Option Nat :=
    if ub.posSsCcChallengeHash = env.constants.FIRST_CC_CHALLENGE then some 0
    else env.getSubSlotStartIters ub.posSsCcChallengeHash
  match startIters with
  | none => none
  | some _ =>
    let block := env.buildFullBlock
    if has_valid_pool_sig env.constants block = false then none
    else some (overflow, infusionFirstSsNewEpoch env block prev_sb)

/-- The flags (overflow, first_ss_new_epoch) at the moment
new_infusion_point_vdf performs its overflow-in-new-epoch check, or none
when the handler exits before reaching that check; computed along the
same path as the handler. -/
def infusionEpochFlags (env : InfusionEnv) (req : InfusionRequestM) :
    Option (Bool × Bool) :=
  match get_unfinished_block env.unfStore req.unfinishedRewardHash with
  | none => none
  | some ub =>
    match infusionPrevSb env req with
    | .cached => none
    | .preGenesis => infusionEpochFlagsTail env ub none
    | .found sb => infusionEpochFlagsTail env ub (some sb)

/-- Concrete constants for the witnesses: every signage point index is
treated as overflowing. -/
def constC3 : ConstantsM :=
  { GENESIS_PREV_HASH := [0]
    MAX_SUB_SLOT_SUB_BLOCKS := 128
    FIRST_CC_CHALLENGE := [6]
    FIRST_RC_CHALLENGE := [7]
    GENESIS_PRE_FARM_POOL_PUZZLE_HASH := [8]
    isOverflow := fun _ => true }

/-- A fresh unfinished block whose first finished sub slot carries a new
difficulty. -/
def blockC3 : UnfinishedBlockM :=
  { partialHash := [10]
    trunkHash := [11]
    prevHeaderHash := [0]
    totalIters := 0
    signagePointIndex := 3
    finishedSubSlots := [{ newDifficulty := some 9 }]
    posSsCcChallengeHash := [6]
    rcSpVdfChallenge := some [12] }

/-- A fixed unfinished-block environment over an empty chain. -/
def envUC3 : UnfEnv :=
  { constants := constC3
    records := []
    peak := none
    canFinishEpoch := fun _ _ _ => false
    validateUnfinished := .ok 0
    nextSes := none
    getSubSlotRc := fun _ => none }

/-- The empty FullNodeStore state. -/
def sEmpty : UnfStoreState := { seenUnfinished := [], unfinishedBlocks := [] }

/-- A stored unfinished block for the infusion witness, keyed by trunk
hash [2]. -/
def ubC3 : UnfinishedBlockM :=
  { partialHash := [20]
    trunkHash := [2]
    prevHeaderHash := [0]
    totalIters := 0
    signagePointIndex := 1
    finishedSubSlots := []
    posSsCcChallengeHash := [6]
    rcSpVdfChallenge := some [13] }

/-- A fixed infusion environment: the request resolves pre-genesis and
the assembled block's first sub slot carries a new difficulty. -/
def envIC3 : InfusionEnv :=
  { constants := constC3
    unfStore := { seenUnfinished := [], unfinishedBlocks := [([2], ubC3)] }
    finishedSubSlots := []
    records := []
    peak := none
    getSubSlotStartIters := fun _ => none
    buildFullBlock :=
      { poolTargetPuzzleHash := [9]
        poolTargetHeight := 1
        prevSubBlockHash := [0]
        poolSigVerifies := true
        finishedSubSlots := [{ newDifficulty := some 5 }] } }

/-- The infusion request matching ubC3 with a pre-genesis challenge. -/
def reqC3 : InfusionRequestM :=
  { unfinishedRewardHash := [2], rcIpVdfChallenge := [7] }

/-- An unfinished block whose partial hash is already in sC6's seen
set. -/
def blockC6 : UnfinishedBlockM :=
  { partialHash := [30]
    trunkHash := [31]
    prevHeaderHash := [0]
    totalIters := 0
    signagePointIndex := 1
    finishedSubSlots := []
    posSsCcChallengeHash := [6]
    rcSpVdfChallenge := some [32] }

/-- A store state that has already seen blockC6's partial hash. -/
def sC6 : UnfStoreState := { seenUnfinished := [[30]], unfinishedBlocks := [] }

end Chia.Node

/-- Claim C9: synced() returns true iff a full peak exists, its foliage
block exists with a timestamp within the last 20 minutes, and sync mode
is off; in every other case, including a missing peak, it returns
false. -/
theorem synced_iff (fullPeak : Option Chia.Node.PeakBlock) (now : Int) (syncMode : Bool) :
    Chia.Node.synced fullPeak now syncMode = true ↔
      ∃ p fb, fullPeak = some p ∧ p.foliageBlock = some fb ∧
        now - 60 * 20 ≤ (fb.timestamp : Int) ∧ syncMode = false := by
  constructor
  · intro h
    match hp : fullPeak with
    | none => simp [Chia.Node.synced, hp] at h
    | some p =>
      match hfb : p.foliageBlock with
      | none => simp [Chia.Node.synced, hp, hfb] at h
      | some fb =>
        refine ⟨p, fb, rfl, hfb, ?_, ?_⟩
        · by_contra hlt
          push_neg at hlt
          simp [Chia.Node.synced, hp, hfb, hlt] at h
          omega
        · by_contra hs
          rw [Bool.not_eq_false] at hs
          simp [Chia.Node.synced, hp, hfb, hs] at h
  · rintro ⟨p, fb, rfl, hfb, hts, hs⟩
    simp [Chia.Node.synced, hfb, hs, not_lt.mpr hts]
    omega

/-- Helper for C5: the dispatcher leaves `error` at None for a condition
with an unknown opcode. -/
theorem checkCvp_unknown (env : Chia.Mempool.MempoolEnv) (cvp : Chia.Mempool.ConditionVarPair)
    (h : cvp.opcode.isKnown = false) : Chia.Mempool.checkCvp env cvp = none := by
  cases hc : cvp.opcode <;> rw [hc] at h <;>
    first
      | exact absurd h (by decide)
      | simp [Chia.Mempool.checkCvp, hc]

/-- Helper for C5: filtering out unknown-opcode conditions does not change
the result of the inner check loop. -/
theorem checkList_filter_known (env : Chia.Mempool.MempoolEnv)
    (l : List Chia.Mempool.ConditionVarPair) :
    Chia.Mempool.checkList env (l.filter (fun c => c.opcode.isKnown)) =
      Chia.Mempool.checkList env l := by
  induction l with
  | nil => rfl
  | cons cvp rest ih =>
    by_cases hk : cvp.opcode.isKnown = true
    · simp only [List.filter_cons, hk, if_pos, Chia.Mempool.checkList, ih]
    · rw [Bool.not_eq_true] at hk
      simp only [List.filter_cons, hk, Bool.false_eq_true, if_false, ih,
        Chia.Mempool.checkList, checkCvp_unknown env cvp hk]

/-- Claim C5 counterexample: a conditions dictionary holding exactly one
condition, whose opcode is the unknown opcode 99, makes
mempool_check_conditions_dict return None rather than the InvalidCondition
error: the if/elif dispatch falls through and the condition is silently
skipped. -/
theorem mempool_unknown_opcode_cex :
    Chia.Mempool.mempool_check_conditions_dict Chia.Mempool.envC5
        [[{ opcode := .other 99, vars := [] }]] = none ∧
      (none : Option Chia.Mempool.Err) ≠ some .INVALID_CONDITION :=
  ⟨rfl, by decide⟩

/-- Claim C5 (amended): conditions whose opcode is not one of the five
known opcodes are silently ignored by mempool_check_conditions_dict: the
function's result on any conditions dictionary equals its result on the
dictionary with all unknown-opcode conditions removed, so an unknown
opcode never yields any error. -/
theorem mempool_unknown_opcode_ignored (env : Chia.Mempool.MempoolEnv)
    (conditionsDict : List (List Chia.Mempool.ConditionVarPair)) :
    Chia.Mempool.mempool_check_conditions_dict env
        (conditionsDict.map (fun l => l.filter (fun c => c.opcode.isKnown))) =
      Chia.Mempool.mempool_check_conditions_dict env conditionsDict := by
  induction conditionsDict with
  | nil => rfl
  | cons l rest ih =>
    simp only [List.map_cons, Chia.Mempool.mempool_check_conditions_dict,
      checkList_filter_known, ih]

/-- Helper for C10: the two tree-hash recursions agree on every node. -/
theorem tree_hash_agrees (stdHash : Bytes → Bytes) (precalculated : List Bytes)
    (node : Chia.ProgramTypes.SExp) :
    Chia.ProgramTypes.Program.tree_hash stdHash precalculated node =
      Chia.ProgramTypes.tree_hash stdHash precalculated node := by
  induction node with
  | atom a => rfl
  | pair l r ihl ihr =>
    simp only [Chia.ProgramTypes.Program.tree_hash, Chia.ProgramTypes.tree_hash, ihl, ihr]

/-- Claim C10: the Program._tree_hash method computes the same digest as
the module-level _tree_hash function on every s-expression node and every
precalculated set, and therefore Program.get_tree_hash agrees with
SerializedProgram.get_tree_hash on the deserialized form of the same
buffer. -/
theorem tree_hash_refines (stdHash : Bytes → Bytes) (precalculated : List Bytes)
    (node : Chia.ProgramTypes.SExp) (parse : Bytes → Chia.ProgramTypes.SExp)
    (buf : Bytes) (args : List Bytes) :
    Chia.ProgramTypes.Program.tree_hash stdHash precalculated node =
      Chia.ProgramTypes.tree_hash stdHash precalculated node ∧
    Chia.ProgramTypes.Program.get_tree_hash stdHash args (parse buf) =
      Chia.ProgramTypes.SerializedProgram.get_tree_hash parse stdHash buf args := by
  refine ⟨tree_hash_agrees stdHash precalculated node, ?_⟩
  simp only [Chia.ProgramTypes.Program.get_tree_hash,
    Chia.ProgramTypes.SerializedProgram.get_tree_hash]
  exact tree_hash_agrees stdHash args (parse buf)

/-- Helper for C2: the batch loop returns failure exactly when some step
in the remaining list is failing, provided every error-free step carries
required_iters. -/
theorem receive_batch_loop_success (steps : List Chia.Node.StepInput) :
    ∀ (adv : Bool) (fork : Option Nat),
      (∀ s ∈ steps, s.pv.error = none → s.pv.requiredIters ≠ none) →
      ((Chia.Node.receive_batch_loop steps adv fork).success = false ↔
        ∃ s ∈ steps, s.failing) := by
  induction steps with
  | nil =>
    intro adv fork _
    simp [Chia.Node.receive_batch_loop, Chia.Node.BatchOutcome.success]
  | cons s rest ih =>
    intro adv fork hwf
    by_cases he : s.pv.error.isSome
    · simp only [Chia.Node.receive_batch_loop, he, if_pos,
        Chia.Node.BatchOutcome.success]
      constructor
      · intro _
        exact ⟨s, List.mem_cons_self s rest,
          Or.inl (Option.isSome_iff_ne_none.mp he)⟩
      · intro _; trivial
    · have he' : s.pv.error = none := Option.not_isSome_iff_eq_none.mp he
      have hri : s.pv.requiredIters ≠ none :=
        hwf s (List.mem_cons_self s rest) he'
      have hriB : s.pv.requiredIters.isNone = false := by
        rw [Option.isNone_eq_false_iff, Option.isSome_iff_ne_none]; exact hri
      have hrest : ∀ t ∈ rest, t.pv.error = none → t.pv.requiredIters ≠ none :=
        fun t ht => hwf t (List.mem_cons_of_mem s ht)
      by_cases hnp : s.recvResult.1 = Chia.Node.ReceiveBlockResult.NEW_PEAK
      · simp only [Chia.Node.receive_batch_loop, he, hriB, hnp, if_true,
          Bool.false_eq_true, if_false, ih true _ hrest]
        constructor
        · rintro ⟨t, ht, hbad⟩
          exact ⟨t, List.mem_cons_of_mem s ht, hbad⟩
        · rintro ⟨t, ht, hbad⟩
          rcases List.mem_cons.mp ht with rfl | ht'
          · rcases hbad with h1 | h1 | h1
            · exact absurd he' h1
            · rw [hnp] at h1; exact absurd h1 (by decide)
            · rw [hnp] at h1; exact absurd h1 (by decide)
          · exact ⟨t, ht', hbad⟩
      · by_cases hbadr : s.recvResult.1 = Chia.Node.ReceiveBlockResult.INVALID_BLOCK ∨
            s.recvResult.1 = Chia.Node.ReceiveBlockResult.DISCONNECTED_BLOCK
        · simp only [Chia.Node.receive_batch_loop, he, hriB, hnp, hbadr,
            Bool.false_eq_true, if_false, if_true, Chia.Node.BatchOutcome.success]
          constructor
          · intro _
            exact ⟨s, List.mem_cons_self s rest, Or.inr hbadr⟩
          · intro _; trivial
        · simp only [Chia.Node.receive_batch_loop, he, hriB, hnp, hbadr,
            Bool.false_eq_true, if_false, ih adv _ hrest]
          constructor
          · rintro ⟨t, ht, hbad⟩
            exact ⟨t, List.mem_cons_of_mem s ht, hbad⟩
          · rintro ⟨t, ht, hbad⟩
            rcases List.mem_cons.mp ht with rfl | ht'
            · rcases hbad with h1 | h1 | h1
              · exact absurd he' h1
              · exact absurd (Or.inl h1) hbadr
              · exact absurd (Or.inr h1) hbadr
            · exact ⟨t, ht', hbad⟩

/-- Helper for C2: when the batch loop completes successfully,
advanced_peak is true iff it started true or some step returned
NEW_PEAK. -/
theorem receive_batch_loop_advanced (steps : List Chia.Node.StepInput) :
    ∀ (adv : Bool) (fork : Option Nat),
      (Chia.Node.receive_batch_loop steps adv fork).success = true →
      ((Chia.Node.receive_batch_loop steps adv fork).advancedPeak = true ↔
        adv = true ∨ ∃ s ∈ steps,
          s.recvResult.1 = Chia.Node.ReceiveBlockResult.NEW_PEAK) := by
  induction steps with
  | nil =>
    intro adv fork _
    simp [Chia.Node.receive_batch_loop, Chia.Node.BatchOutcome.advancedPeak]
  | cons s rest ih =>
    intro adv fork hsucc
    by_cases he : s.pv.error.isSome
    · simp [Chia.Node.receive_batch_loop, he,
        Chia.Node.BatchOutcome.success] at hsucc
    · by_cases hriB : s.pv.requiredIters.isNone
      · simp [Chia.Node.receive_batch_loop, he, hriB,
          Chia.Node.BatchOutcome.success] at hsucc
      · by_cases hnp : s.recvResult.1 = Chia.Node.ReceiveBlockResult.NEW_PEAK
        · rw [Bool.not_eq_true] at he hriB
          simp only [Chia.Node.receive_batch_loop, he, hriB, hnp, if_true,
            Bool.false_eq_true, if_false] at hsucc ⊢
          rw [ih true _ hsucc]
          constructor
          · intro _
            exact Or.inr ⟨s, List.mem_cons_self s rest, hnp⟩
          · intro _; left; rfl
        · by_cases hbadr : s.recvResult.1 = Chia.Node.ReceiveBlockResult.INVALID_BLOCK ∨
              s.recvResult.1 = Chia.Node.ReceiveBlockResult.DISCONNECTED_BLOCK
          · rw [Bool.not_eq_true] at he hriB
            simp [Chia.Node.receive_batch_loop, he, hriB, hnp, hbadr,
              Chia.Node.BatchOutcome.success] at hsucc
          · rw [Bool.not_eq_true] at he hriB
            simp only [Chia.Node.receive_batch_loop, he, hriB, hnp, hbadr,
              Bool.false_eq_true, if_false] at hsucc ⊢
            rw [ih adv _ hsucc]
            constructor
            · rintro (hadv | ⟨t, ht, hpk⟩)
              · exact Or.inl hadv
              · exact Or.inr ⟨t, List.mem_cons_of_mem s ht, hpk⟩
            · rintro (hadv | ⟨t, ht, hpk⟩)
              · exact Or.inl hadv
              · rcases List.mem_cons.mp ht with rfl | ht'
                · exact absurd hpk hnp
                · exact Or.inr ⟨t, ht', hpk⟩

/-- Claim C2: with pre-validation not returning None and every
error-free pre-validation result carrying required_iters,
receive_sub_block_batch returns a failure triple exactly when some block
has a pre-validation error or receive_block returns INVALID_BLOCK or
DISCONNECTED_BLOCK for some block; on success, advanced_peak is true iff
some receive_block call returned NEW_PEAK. -/
theorem receive_sub_block_batch_spec (env : Chia.Node.BatchEnv)
    (hpv : env.preValidationFailed = false)
    (hwf : ∀ s ∈ env.steps, s.pv.error = none → s.pv.requiredIters ≠ none) :
    ((Chia.Node.receive_sub_block_batch env).success = false ↔
      ∃ s ∈ env.steps, s.failing) ∧
    ((Chia.Node.receive_sub_block_batch env).success = true →
      ((Chia.Node.receive_sub_block_batch env).advancedPeak = true ↔
        ∃ s ∈ env.steps,
          s.recvResult.1 = Chia.Node.ReceiveBlockResult.NEW_PEAK)) := by
  unfold Chia.Node.receive_sub_block_batch
  rw [hpv]
  simp only [Bool.false_eq_true, if_false]
  refine ⟨receive_batch_loop_success env.steps false (some 0) hwf, ?_⟩
  intro hsucc
  rw [receive_batch_loop_advanced env.steps false (some 0) hsucc]
  simp

/-- Witness for C2 at a concrete one-block batch whose receive_block call
returns NEW_PEAK. -/
theorem receive_sub_block_batch_spec_witness :
    (Chia.Node.envC2.preValidationFailed = false) ∧
    (∀ s ∈ Chia.Node.envC2.steps, s.pv.error = none → s.pv.requiredIters ≠ none) ∧
    (((Chia.Node.receive_sub_block_batch Chia.Node.envC2).success = false ↔
        ∃ s ∈ Chia.Node.envC2.steps, s.failing) ∧
      ((Chia.Node.receive_sub_block_batch Chia.Node.envC2).success = true →
        ((Chia.Node.receive_sub_block_batch Chia.Node.envC2).advancedPeak = true ↔
          ∃ s ∈ Chia.Node.envC2.steps,
            s.recvResult.1 = Chia.Node.ReceiveBlockResult.NEW_PEAK))) :=
  ⟨rfl, by decide, receive_sub_block_batch_spec Chia.Node.envC2 rfl (by decide)⟩

/-- Claim C7: when start_sub_height > 0 and the first fetched block's
prev_header_hash is not in our blockchain, short_sync_batch returns
False without adding the peer to batch_syncing, without any
receive_sub_block_batch call, and without any peak post-processing. -/
theorem short_sync_batch_parent_absent (env : Chia.Node.ShortSyncEnv)
    (start_sub_height target_sub_height : Nat) (first : Chia.Node.FetchedBlock)
    (hs : 0 < start_sub_height)
    (hf : env.firstResponse = some first)
    (hnc : env.containsSubBlock first.prevHeaderHash = false) :
    Chia.Node.short_sync_batch env start_sub_height target_sub_height =
      { returned := some false, addedBatchSyncing := false,
        removedBatchSyncing := false, batchCalls := 0, peakPostCalls := 0 } := by
  simp [Chia.Node.short_sync_batch, hs, hf, hnc]

/-- Witness for C7 at a concrete environment whose first response has an
unknown parent hash. -/
theorem short_sync_batch_parent_absent_witness :
    0 < 1 ∧ Chia.Node.envC7.firstResponse = some { prevHeaderHash := [3] } ∧
    Chia.Node.envC7.containsSubBlock
      (Chia.Node.FetchedBlock.mk [3]).prevHeaderHash = false ∧
    Chia.Node.short_sync_batch Chia.Node.envC7 1 5 =
      { returned := some false, addedBatchSyncing := false,
        removedBatchSyncing := false, batchCalls := 0, peakPostCalls := 0 } :=
  ⟨by decide, rfl, rfl,
    short_sync_batch_parent_absent Chia.Node.envC7 1 5
      (Chia.Node.FetchedBlock.mk [3]) (by decide) rfl rfl⟩

/-- Claim C1 counterexample: with a local peak whose weight equals the
announced weight (so greater than or equal holds) and a fresh block one
height above, new_peak does start a sync: the strict test at line 271
does not fire and a backtrack sync runs. -/
theorem new_peak_equal_weight_cex :
    (∃ p, Chia.Node.envC1.peak = some p ∧ Chia.Node.reqC1.weight ≤ p.weight) ∧
    (Chia.Node.new_peak Chia.Node.envC1 Chia.Node.reqC1).backtrackStarted = true :=
  ⟨⟨{ weight := 5, subBlockHeight := 10 }, rfl, by decide⟩, by decide⟩

/-- Claim C1 (amended): for every call to new_peak in which the local
peak's weight is STRICTLY greater than request.weight, the handler
records the (peer, peak) pair in the sync store and returns without
starting any sync: no backtrack sync, no batch sync, no long-sync task,
and no exception. -/
theorem new_peak_strictly_heavier_no_sync (env : Chia.Node.NewPeakEnv)
    (request : Chia.Node.NewPeakRequest) (p : Chia.Node.PeakInfo)
    (hp : env.peak = some p) (hw : request.weight < p.weight) :
    Chia.Node.new_peak env request =
      { peakPeerAdds := [(request.headerHash, request.weight, request.subBlockHeight)],
        backtrackStarted := false, batchStarted := false,
        longSyncLaunched := false, raised := false } := by
  unfold Chia.Node.new_peak
  rw [hp]
  by_cases hc : env.containsSubBlock request.headerHash
  · simp [hc]
  · simp [hc, hw]

/-- Witness for C1 (amended) at a concrete environment whose peak weight
6 exceeds the announced weight 5. -/
theorem new_peak_strictly_heavier_no_sync_witness :
    ({ Chia.Node.envC1 with peak := some { weight := 6, subBlockHeight := 10 }
       } : Chia.Node.NewPeakEnv).peak = some { weight := 6, subBlockHeight := 10 } ∧
    Chia.Node.reqC1.weight < 6 ∧
    Chia.Node.new_peak
        { Chia.Node.envC1 with peak := some { weight := 6, subBlockHeight := 10 } }
        Chia.Node.reqC1 =
      { peakPeerAdds := [(Chia.Node.reqC1.headerHash, Chia.Node.reqC1.weight,
          Chia.Node.reqC1.subBlockHeight)],
        backtrackStarted := false, batchStarted := false,
        longSyncLaunched := false, raised := false } :=
  ⟨rfl, by decide,
    new_peak_strictly_heavier_no_sync
      { Chia.Node.envC1 with peak := some { weight := 6, subBlockHeight := 10 } }
      Chia.Node.reqC1 { weight := 6, subBlockHeight := 10 } rfl (by decide)⟩

/-- Claim C4: when _sync reaches the weight-proof response and the last
recent-chain entry's height or weight differs from the announced target,
the weight-proof peer is closed, the body raises (aborting the sync), and
_finish_sync runs and sets sync mode back to false. -/
theorem sync_wp_mismatch_aborts (env : Chia.Node.SyncEnv) (hh : Bytes)
    (targetHeight targetWeight : Nat) (entry : Chia.Node.WpLastEntry)
    (h0 : env.syncModeAtStart = false)
    (h1 : env.shutDown = false)
    (h2 : env.targetPeak = some (hh, targetHeight, targetWeight))
    (h3 : env.peersWithPeakNonempty = true)
    (h4 : ∀ lw, env.localPeakWeight = some lw → lw < targetWeight)
    (h5 : env.wpResponse = some entry)
    (h6 : entry.subBlockHeight ≠ targetHeight ∨ entry.weight ≠ targetWeight) :
    Chia.Node.sync env =
      { setSyncModeTrue := true, wpPeerClosed := true, abortedSync := true,
        finishSyncRan := true, finalSyncMode := false } := by
  have hbody : Chia.Node.sync_body env = .raisedWith true := by
    unfold Chia.Node.sync_body
    rw [h1, h2, h3, h5]
    cases hlw : env.localPeakWeight with
    | none =>
      rcases h6 with h6 | h6
      · simp [h6]
      · by_cases hht : entry.subBlockHeight = targetHeight
        · simp [hht, h6]
        · simp [hht]
    | some lw =>
      have hlt : ¬ (targetWeight ≤ lw) := not_le.mpr (h4 lw hlw)
      rcases h6 with h6 | h6
      · simp [hlt, h6]
      · by_cases hht : entry.subBlockHeight = targetHeight
        · simp [hlt, hht, h6]
        · simp [hlt, hht]
  unfold Chia.Node.sync
  rw [h0, hbody, h1]
  rfl

/-- Witness for C4 at a concrete environment whose weight proof reports
height 999 against an announced target height 1000. -/
theorem sync_wp_mismatch_aborts_witness :
    Chia.Node.envC4.syncModeAtStart = false ∧
    Chia.Node.envC4.shutDown = false ∧
    Chia.Node.envC4.targetPeak = some ([9], 1000, 800) ∧
    Chia.Node.envC4.peersWithPeakNonempty = true ∧
    (∀ lw, Chia.Node.envC4.localPeakWeight = some lw → lw < 800) ∧
    Chia.Node.envC4.wpResponse = some { subBlockHeight := 999, weight := 800 } ∧
    (({ subBlockHeight := 999, weight := 800 } : Chia.Node.WpLastEntry).subBlockHeight ≠ 1000 ∨
      ({ subBlockHeight := 999, weight := 800 } : Chia.Node.WpLastEntry).weight ≠ 800) ∧
    Chia.Node.sync Chia.Node.envC4 =
      { setSyncModeTrue := true, wpPeerClosed := true, abortedSync := true,
        finishSyncRan := true, finalSyncMode := false } :=
  ⟨rfl, rfl, rfl, rfl, by decide, rfl, by decide,
    sync_wp_mismatch_aborts Chia.Node.envC4 [9] 1000 800
      { subBlockHeight := 999, weight := 800 } rfl rfl rfl rfl (by decide) rfl
      (by decide)⟩

/-- Claim C8: while sync mode is true, respond_sub_block returns None
immediately: receive_block is never called (so no block is added and the
peak cannot change), no peak post-processing runs, no message is
broadcast, no temporary data or sync info is cleared, and nothing is
raised. -/
theorem respond_sub_block_sync_mode_noop (env : Chia.Node.RespondSubBlockEnv)
    (headerHash : Bytes) (h : env.syncMode = true) :
    Chia.Node.respond_sub_block env headerHash =
      { receiveBlockCalled := false, peakPostCalled := false, messages := [],
        clearedTempBelow := none, clearedSyncInfo := false, raised := false } := by
  simp [Chia.Node.respond_sub_block, h]

/-- Witness for C8 at a concrete environment in sync mode. -/
theorem respond_sub_block_sync_mode_noop_witness :
    Chia.Node.envC8.syncMode = true ∧
    Chia.Node.respond_sub_block Chia.Node.envC8 [5] =
      { receiveBlockCalled := false, peakPostCalled := false, messages := [],
        clearedTempBelow := none, clearedSyncInfo := false, raised := false } :=
  ⟨rfl, respond_sub_block_sync_mode_noop Chia.Node.envC8 [5] rfl⟩

/-- Helper for C6: seen_unfinished_block always records the hash. -/
theorem seen_unfinished_block_mem (s : Chia.Node.UnfStoreState) (h : Bytes) :
    h ∈ (Chia.Node.seen_unfinished_block s h).2.seenUnfinished := by
  unfold Chia.Node.seen_unfinished_block
  by_cases hm : h ∈ s.seenUnfinished
  · simp [hm]
  · simp [hm]

/-- Helper for C6: a delivery whose partial hash is already seen is
dropped with the whole state untouched. -/
theorem respond_unfinished_seen_drop (env : Chia.Node.UnfEnv)
    (s : Chia.Node.UnfStoreState) (block : Chia.Node.UnfinishedBlockM)
    (h : block.partialHash ∈ s.seenUnfinished) :
    Chia.Node.respond_unfinished_sub_block env s block =
      { state := s, stored := false, sentTimelords := false,
        sentFullNodes := false, raised := false } := by
  simp [Chia.Node.respond_unfinished_sub_block, Chia.Node.seen_unfinished_block, h]

/-- Helper for C6: after any delivery the partial hash is in the seen
set of the resulting state. -/
theorem respond_unfinished_partial_seen (env : Chia.Node.UnfEnv)
    (s : Chia.Node.UnfStoreState) (block : Chia.Node.UnfinishedBlockM) :
    block.partialHash ∈
      (Chia.Node.respond_unfinished_sub_block env s block).state.seenUnfinished := by
  have hmem := seen_unfinished_block_mem s block.partialHash
  simp only [Chia.Node.respond_unfinished_sub_block]
  repeat' split
  all_goals simpa [Chia.Node.add_unfinished_block] using hmem

/-- Helper for C6: a delivery whose partial hash is seen or whose trunk
hash is already stored is dropped: nothing is stored, nothing is sent,
and the unfinished-block store is unchanged. -/
theorem respond_unfinished_dup_drop (env : Chia.Node.UnfEnv)
    (s : Chia.Node.UnfStoreState) (block : Chia.Node.UnfinishedBlockM)
    (h : block.partialHash ∈ s.seenUnfinished ∨
      (Chia.Node.get_unfinished_block s block.trunkHash).isSome = true) :
    (Chia.Node.respond_unfinished_sub_block env s block).stored = false ∧
    (Chia.Node.respond_unfinished_sub_block env s block).sentTimelords = false ∧
    (Chia.Node.respond_unfinished_sub_block env s block).sentFullNodes = false ∧
    (Chia.Node.respond_unfinished_sub_block env s block).state.unfinishedBlocks =
      s.unfinishedBlocks := by
  by_cases hm : block.partialHash ∈ s.seenUnfinished
  · rw [respond_unfinished_seen_drop env s block hm]
    exact ⟨rfl, rfl, rfl, rfl⟩
  · have ht : (Chia.Node.get_unfinished_block s block.trunkHash).isSome = true := by
      rcases h with h | h
      · exact absurd h hm
      · exact h
    have hseen : Chia.Node.seen_unfinished_block s block.partialHash =
        (false, { s with seenUnfinished := block.partialHash :: s.seenUnfinished }) := by
      simp [Chia.Node.seen_unfinished_block, hm]
    have ht' : (Chia.Node.get_unfinished_block
        { s with seenUnfinished := block.partialHash :: s.seenUnfinished }
        block.trunkHash).isSome = true := ht
    simp only [Chia.Node.respond_unfinished_sub_block, hseen]
    simp [ht']

/-- Claim C6: a delivery whose partial hash is in the seen-unfinished
set or whose trunk hash already has a stored unfinished block returns
immediately without storing the block and without broadcasting to
timelords or full nodes; and delivering the same unfinished block a
second time is a no-op: the second call drops it and leaves the state
exactly as the first call left it. -/
theorem unfinished_duplicate_noop (env : Chia.Node.UnfEnv)
    (s : Chia.Node.UnfStoreState) (block : Chia.Node.UnfinishedBlockM) :
    ((block.partialHash ∈ s.seenUnfinished ∨
        (Chia.Node.get_unfinished_block s block.trunkHash).isSome = true) →
      ((Chia.Node.respond_unfinished_sub_block env s block).stored = false ∧
       (Chia.Node.respond_unfinished_sub_block env s block).sentTimelords = false ∧
       (Chia.Node.respond_unfinished_sub_block env s block).sentFullNodes = false ∧
       (Chia.Node.respond_unfinished_sub_block env s block).state.unfinishedBlocks =
         s.unfinishedBlocks)) ∧
    Chia.Node.respond_unfinished_sub_block env
        (Chia.Node.respond_unfinished_sub_block env s block).state block =
      { state := (Chia.Node.respond_unfinished_sub_block env s block).state,
        stored := false, sentTimelords := false, sentFullNodes := false,
        raised := false } := by
  refine ⟨respond_unfinished_dup_drop env s block, ?_⟩
  exact respond_unfinished_seen_drop env _ block
    (respond_unfinished_partial_seen env s block)

/-- Witness for C6 at a concrete store that has already seen the
block's partial hash. -/
theorem unfinished_duplicate_noop_witness :
    (Chia.Node.blockC6.partialHash ∈ Chia.Node.sC6.seenUnfinished ∨
      (Chia.Node.get_unfinished_block Chia.Node.sC6
        Chia.Node.blockC6.trunkHash).isSome = true) ∧
    ((Chia.Node.respond_unfinished_sub_block Chia.Node.envUC3 Chia.Node.sC6
        Chia.Node.blockC6).stored = false ∧
     (Chia.Node.respond_unfinished_sub_block Chia.Node.envUC3 Chia.Node.sC6
        Chia.Node.blockC6).sentTimelords = false ∧
     (Chia.Node.respond_unfinished_sub_block Chia.Node.envUC3 Chia.Node.sC6
        Chia.Node.blockC6).sentFullNodes = false ∧
     (Chia.Node.respond_unfinished_sub_block Chia.Node.envUC3 Chia.Node.sC6
        Chia.Node.blockC6).state.unfinishedBlocks =
       Chia.Node.sC6.unfinishedBlocks) ∧
    Chia.Node.respond_unfinished_sub_block Chia.Node.envUC3
        (Chia.Node.respond_unfinished_sub_block Chia.Node.envUC3 Chia.Node.sC6
          Chia.Node.blockC6).state Chia.Node.blockC6 =
      { state := (Chia.Node.respond_unfinished_sub_block Chia.Node.envUC3
          Chia.Node.sC6 Chia.Node.blockC6).state,
        stored := false, sentTimelords := false, sentFullNodes := false,
        raised := false } :=
  ⟨Or.inl (by decide),
   (unfinished_duplicate_noop Chia.Node.envUC3 Chia.Node.sC6 Chia.Node.blockC6).1
     (Or.inl (by decide)),
   (unfinished_duplicate_noop Chia.Node.envUC3 Chia.Node.sC6 Chia.Node.blockC6).2⟩

/-- Helper for C3: when the flags computation reaches the epoch check
with (overflow, first_ss_new_epoch) both true, the infusion tail does
not submit. -/
theorem infusionTail_no_submit (env : Chia.Node.InfusionEnv)
    (ub : Chia.Node.UnfinishedBlockM) (prev_sb : Option Chia.Node.SubBlockRecordM)
    (h : Chia.Node.infusionEpochFlagsTail env ub prev_sb = some (true, true)) :
    (Chia.Node.infusionTail env ub prev_sb).submitted = false := by
  simp only [Chia.Node.infusionEpochFlagsTail] at h
  simp only [Chia.Node.infusionTail]
  cases hsi : (if ub.posSsCcChallengeHash = env.constants.FIRST_CC_CHALLENGE then
      some 0 else env.getSubSlotStartIters ub.posSsCcChallengeHash) with
  | none => rfl
  | some si =>
    rw [hsi] at h
    by_cases hps : Chia.Node.has_valid_pool_sig env.constants env.buildFullBlock = false
    · rw [if_pos hps] at h
      exact absurd h (by simp)
    · rw [if_neg hps] at h
      have hov : env.constants.isOverflow ub.signagePointIndex = true := by
        have := (Option.some.injEq _ _).mp h
        exact congrArg Prod.fst this
      have hfs : Chia.Node.infusionFirstSsNewEpoch env env.buildFullBlock prev_sb = true := by
        have := (Option.some.injEq _ _).mp h
        exact congrArg Prod.snd this
      rw [if_neg hps, if_pos ⟨hfs, hov⟩]

/-- Claim C3: an overflow sub-block whose (first) sub-slot starts a new
epoch is never accepted: respond_unfinished_sub_block drops it without
storing or broadcasting (and without raising), and new_infusion_point_vdf
returns without submitting the assembled FullBlock through
respond_sub_block. -/
theorem no_overflow_in_first_epoch_sub_slot (envU : Chia.Node.UnfEnv)
    (sU : Chia.Node.UnfStoreState) (blockU : Chia.Node.UnfinishedBlockM)
    (envI : Chia.Node.InfusionEnv) (reqI : Chia.Node.InfusionRequestM)
    (hU : envU.constants.isOverflow blockU.signagePointIndex = true ∧
      (Chia.Node.unfEpochFlags envU blockU).1 = true)
    (hI : Chia.Node.infusionEpochFlags envI reqI = some (true, true)) :
    ((Chia.Node.respond_unfinished_sub_block envU sU blockU).stored = false ∧
     (Chia.Node.respond_unfinished_sub_block envU sU blockU).sentTimelords = false ∧
     (Chia.Node.respond_unfinished_sub_block envU sU blockU).sentFullNodes = false ∧
     (Chia.Node.respond_unfinished_sub_block envU sU blockU).raised = false) ∧
    (Chia.Node.new_infusion_point_vdf envI reqI).submitted = false := by
  constructor
  · obtain ⟨ho, hf⟩ := hU
    simp only [Chia.Node.respond_unfinished_sub_block]
    split_ifs <;> first
      | exact ⟨rfl, rfl, rfl, rfl⟩
      | simp_all
  · simp only [Chia.Node.new_infusion_point_vdf]
    simp only [Chia.Node.infusionEpochFlags] at hI
    cases hget : Chia.Node.get_unfinished_block envI.unfStore reqI.unfinishedRewardHash with
    | none => rfl
    | some ub =>
      rw [hget] at hI
      simp only at hI ⊢
      cases hprev : Chia.Node.infusionPrevSb envI reqI with
      | cached => rfl
      | preGenesis =>
        rw [hprev] at hI
        simp only at hI ⊢
        exact infusionTail_no_submit envI ub none hI
      | found sb =>
        rw [hprev] at hI
        simp only at hI ⊢
        exact infusionTail_no_submit envI ub (some sb) hI

/-- Witness for C3 at concrete overflow-in-new-epoch inputs for both
handlers. -/
theorem no_overflow_in_first_epoch_sub_slot_witness :
    (Chia.Node.envUC3.constants.isOverflow Chia.Node.blockC3.signagePointIndex = true ∧
      (Chia.Node.unfEpochFlags Chia.Node.envUC3 Chia.Node.blockC3).1 = true) ∧
    Chia.Node.infusionEpochFlags Chia.Node.envIC3 Chia.Node.reqC3 = some (true, true) ∧
    (((Chia.Node.respond_unfinished_sub_block Chia.Node.envUC3 Chia.Node.sEmpty
        Chia.Node.blockC3).stored = false ∧
      (Chia.Node.respond_unfinished_sub_block Chia.Node.envUC3 Chia.Node.sEmpty
        Chia.Node.blockC3).sentTimelords = false ∧
      (Chia.Node.respond_unfinished_sub_block Chia.Node.envUC3 Chia.Node.sEmpty
        Chia.Node.blockC3).sentFullNodes = false ∧
      (Chia.Node.respond_unfinished_sub_block Chia.Node.envUC3 Chia.Node.sEmpty
        Chia.Node.blockC3).raised = false) ∧
     (Chia.Node.new_infusion_point_vdf Chia.Node.envIC3 Chia.Node.reqC3).submitted =
       false) :=
  ⟨⟨by decide, by decide⟩, by decide,
   no_overflow_in_first_epoch_sub_slot Chia.Node.envUC3 Chia.Node.sEmpty
     Chia.Node.blockC3 Chia.Node.envIC3 Chia.Node.reqC3
     ⟨by decide, by decide⟩ (by decide)⟩
